import Mathlib

/-!
Verification of the logstash output-sink module (`src/logstash/__init__.py`).

The Python module is embedded shallowly:
* `json.dumps` with its default separators and ASCII escaping is modelled at
  the character level (`dumpChars` / `dumps`);
* the Redis client is replaced by an environment record (`RedisEnv`) that fixes
  the outcome of each external operation (`rpush`, the liveness `ping` issued
  by `_connect`), so that `RedisSink.log` becomes a pure function from sink
  state, environment and event to the new state, the observable effects
  (push attempts, reconnect attempts, log lines) and the exception, if any,
  that escapes to the caller;
* `read_config` takes the outcome of `json.loads` as input and returns the
  emitted log lines together with a result that is either a value, a raised
  exception, or a process exit.
-/

namespace Logstash

/-- Lowercase hexadecimal digits, as used by Python for `\uXXXX` escapes. -/
def hexDigitChars : List Char := "0123456789abcdef".data

/-- The hexadecimal digit for `n` (callers pass values below 16). -/
def hexDigit (n : Nat) : Char := hexDigitChars.getD n '0'

/-- Four-digit hexadecimal rendering of `n < 0x10000`, as in `\uXXXX`. -/
def hex4 (n : Nat) : List Char :=
  [hexDigit (n / 4096 % 16), hexDigit (n / 256 % 16), hexDigit (n / 16 % 16), hexDigit (n % 16)]

/-- Escape one character of a JSON string the way Python `json.dumps` does with
its default `ensure_ascii=True`: the two-character escapes for quote,
backslash and the control characters with short names, `\uXXXX` (with a
surrogate pair above the BMP) for every other character outside `0x20`–`0x7e`,
and the character itself otherwise. -/
def escChar (c : Char) : List Char :=
  if c = '"' then ['\\', '"']
  else if c = '\\' then ['\\', '\\']
  else if c = '\n' then ['\\', 'n']
  else if c = '\r' then ['\\', 'r']
  else if c = '\t' then ['\\', 't']
  else if c = '\x08' then ['\\', 'b']
  else if c = '\x0c' then ['\\', 'f']
  else if c.toNat < 32 ∨ c.toNat > 126 then
    if c.toNat < 65536 then
      '\\' :: 'u' :: hex4 c.toNat
    else
      '\\' :: 'u' :: hex4 (55296 + (c.toNat - 65536) / 1024) ++
        '\\' :: 'u' :: hex4 (56320 + (c.toNat - 65536) % 1024)
  else [c]

/-- JSON rendering of a string: quote, escaped characters, quote. -/
def dumpStringChars (s : String) : List Char :=
  '"' :: s.data.flatMap escChar ++ ['"']

/-- Decimal digits of `n` accumulated onto `acc`; `fuel` bounds the recursion
and is always sufficient at the call site in `natDecimal`. -/
def natDecimalAux : Nat → Nat → List Char → List Char
  | 0, _, acc => acc
  | fuel + 1, n, acc =>
    if n < 10 then hexDigit (n % 10) :: acc
    else natDecimalAux fuel (n / 10) (hexDigit (n % 10) :: acc)

/-- Decimal rendering of a natural number. -/
def natDecimal (n : Nat) : List Char := natDecimalAux (n + 1) n []

/-- Decimal rendering of an integer, with a leading minus sign when negative,
matching Python `json.dumps` output for `int` values. -/
def intDecimal : Int → List Char
  | Int.ofNat n => natDecimal n
  | Int.negSucc n => '-' :: natDecimal (n + 1)

/-- JSON-representable field value of a log event. The events exercised by the
module (and by every claim) carry scalar fields; `json.dumps` renders them as
below. -/
inductive Jval where
  | str (s : String)
  | jnum (n : Int)
  | jbool (b : Bool)
  | jnull
deriving DecidableEq, Repr

/-- JSON rendering of one field value. -/
def dumpVal : Jval → List Char
  | Jval.str s => dumpStringChars s
  | Jval.jnum n => intDecimal n
  | Jval.jbool true => "true".data
  | Jval.jbool false => "false".data
  | Jval.jnull => "null".data

/-- A log event: the `**kwargs` mapping, in insertion order, as Python 3
keyword arguments preserve it. -/
abbrev LogEvent := List (String × Jval)

/-- One `key: value` member of a JSON object, using the default
`key_separator = ": "` of Python `json.dumps`. -/
def dumpEntry (k : String) (v : Jval) : List Char :=
  dumpStringChars k ++ ':' :: ' ' :: dumpVal v

/-- The members of a JSON object after the first, each preceded by the default
`item_separator = ", "`. -/
def dumpObjRest : LogEvent → List Char
  | [] => []
  | (k, v) :: fs => ',' :: ' ' :: dumpEntry k v ++ dumpObjRest fs

/-- All members of a JSON object, separated by `", "`. -/
def dumpObjChars : LogEvent → List Char
  | [] => []
  | (k, v) :: fs => dumpEntry k v ++ dumpObjRest fs

/-- Characters of `json.dumps(kwargs)` for an event. -/
def dumpChars (ev : LogEvent) : List Char :=
  '\x7b' :: dumpObjChars ev ++ ['\x7d']

/-- The serialized event, `json.dumps(kwargs)`. -/
def dumps (ev : LogEvent) : String := String.mk (dumpChars ev)

example : dumps [("level", Jval.str "error"), ("msg", Jval.str "disk full")] =
    "\x7b\"level\": \"error\", \"msg\": \"disk full\"\x7d" := by decide

example : dumps [] = "\x7b\x7d" := by decide

example : dumps [("n", Jval.jnum (-42)), ("b", Jval.jbool true), ("x", Jval.jnull)] =
    "\x7b\"n\": -42, \"b\": true, \"x\": null\x7d" := by decide

example : dumps [("s", Jval.str "a\"b\\c\nd")] =
    "\x7b\"s\": \"a\\\"b\\\\c\\nd\"\x7d" := by decide

/-! Serialization produces no newline character: this is what makes the
console sink's output a single line per event. -/

theorem hexDigit_ne_newline (n : Nat) : hexDigit n ≠ '\n' := by
  rcases Nat.lt_or_ge n 16 with h | h
  · unfold hexDigit hexDigitChars
    interval_cases n <;> decide
  · unfold hexDigit
    rw [List.getD_eq_default]
    · decide
    · simpa [hexDigitChars] using h

theorem newline_not_mem_hex4 (n : Nat) : '\n' ∉ hex4 n := by
  intro h
  simp only [hex4, List.mem_cons, List.not_mem_nil, or_false] at h
  rcases h with h | h | h | h <;> exact hexDigit_ne_newline _ h.symm

theorem newline_not_mem_escChar (c : Char) : '\n' ∉ escChar c := by
  unfold escChar
  split_ifs with h1 h2 h3 h4 h5 h6 h7 h8 h9
  · decide
  · decide
  · decide
  · decide
  · decide
  · decide
  · decide
  · intro h
    rcases List.mem_cons.mp h with h | h
    · exact absurd h (by decide)
    rcases List.mem_cons.mp h with h | h
    · exact absurd h (by decide)
    exact newline_not_mem_hex4 _ h
  · intro h
    simp only [List.mem_cons, List.mem_append] at h
    rcases h with (h | h | h) | (h | h | h)
    · exact absurd h (by decide)
    · exact absurd h (by decide)
    · exact newline_not_mem_hex4 _ h
    · exact absurd h (by decide)
    · exact absurd h (by decide)
    · exact newline_not_mem_hex4 _ h
  · intro h
    rcases List.mem_singleton.mp h with h
    exact h3 h.symm

theorem newline_not_mem_dumpStringChars (s : String) : '\n' ∉ dumpStringChars s := by
  intro h
  simp only [dumpStringChars, List.mem_cons, List.mem_append, List.mem_singleton] at h
  rcases h with (h | h) | h
  · exact absurd h (by decide)
  · rcases List.mem_flatMap.mp h with ⟨c, _, hc⟩
    exact newline_not_mem_escChar c hc
  · exact absurd h (by decide)

theorem newline_not_mem_natDecimalAux (fuel n : Nat) (acc : List Char)
    (hacc : '\n' ∉ acc) : '\n' ∉ natDecimalAux fuel n acc := by
  induction fuel generalizing n acc with
  | zero => simpa [natDecimalAux] using hacc
  | succ fuel ih =>
    unfold natDecimalAux
    split_ifs
    · intro h
      rcases List.mem_cons.mp h with h | h
      · exact hexDigit_ne_newline _ h.symm
      · exact hacc h
    · refine ih _ _ ?_
      intro h
      rcases List.mem_cons.mp h with h | h
      · exact hexDigit_ne_newline _ h.symm
      · exact hacc h

theorem newline_not_mem_natDecimal (n : Nat) : '\n' ∉ natDecimal n :=
  newline_not_mem_natDecimalAux _ _ _ (by simp)

theorem newline_not_mem_intDecimal (n : Int) : '\n' ∉ intDecimal n := by
  cases n with
  | ofNat m => exact newline_not_mem_natDecimal m
  | negSucc m =>
    intro h
    rcases List.mem_cons.mp h with h | h
    · exact absurd h (by decide)
    · exact newline_not_mem_natDecimal _ h

theorem newline_not_mem_dumpVal (v : Jval) : '\n' ∉ dumpVal v := by
  cases v with
  | str s => exact newline_not_mem_dumpStringChars s
  | jnum n => exact newline_not_mem_intDecimal n
  | jbool b => cases b <;> decide
  | jnull => decide

theorem newline_not_mem_dumpEntry (k : String) (v : Jval) : '\n' ∉ dumpEntry k v := by
  intro h
  simp only [dumpEntry, List.mem_append, List.mem_cons] at h
  rcases h with h | h | h | h
  · exact newline_not_mem_dumpStringChars k h
  · exact absurd h (by decide)
  · exact absurd h (by decide)
  · exact newline_not_mem_dumpVal v h

theorem newline_not_mem_dumpObjRest (fs : LogEvent) : '\n' ∉ dumpObjRest fs := by
  induction fs with
  | nil => simp [dumpObjRest]
  | cons f fs ih =>
    obtain ⟨k, v⟩ := f
    intro h
    simp only [dumpObjRest, List.mem_cons, List.mem_append] at h
    rcases h with (h | h | h) | h
    · exact absurd h (by decide)
    · exact absurd h (by decide)
    · exact newline_not_mem_dumpEntry k v h
    · exact ih h

theorem newline_not_mem_dumpObjChars (fs : LogEvent) : '\n' ∉ dumpObjChars fs := by
  cases fs with
  | nil => simp [dumpObjChars]
  | cons f fs =>
    obtain ⟨k, v⟩ := f
    intro h
    simp only [dumpObjChars, List.mem_append] at h
    rcases h with h | h
    · exact newline_not_mem_dumpEntry k v h
    · exact newline_not_mem_dumpObjRest fs h

theorem newline_not_mem_dumpChars (ev : LogEvent) : '\n' ∉ dumpChars ev := by
  intro h
  simp only [dumpChars, List.mem_cons, List.mem_append, List.mem_singleton] at h
  rcases h with (h | h) | h
  · exact absurd h (by decide)
  · exact newline_not_mem_dumpObjChars ev h
  · exact absurd h (by decide)

/-! The sink model. -/

/-- A Python exception relevant to the module. `connError` stands for
`redis.exceptions.ConnectionError` (the only class named in an `except`
clause of `RedisSink.log`); the other constructors stand for exceptions that
are not connection errors (server-side `redis.exceptions.ResponseError`,
`TypeError`, `KeyError`, `ValueError`). -/
inductive PyExc where
  | connError (msg : String)
  | respError (msg : String)
  | typeError (msg : String)
  | keyError (key : String)
  | valueError (msg : String)
deriving DecidableEq, Repr

/-- Whether `except redis.exceptions.ConnectionError` catches the exception. -/
def PyExc.isConnectionError : PyExc → Bool
  | PyExc.connError _ => true
  | _ => false

/-- The text `str(e)` interpolated into the module's log lines. -/
def PyExc.str : PyExc → String
  | PyExc.connError m => m
  | PyExc.respError m => m
  | PyExc.typeError m => m
  | PyExc.keyError k => k
  | PyExc.valueError m => m

/-- The mutable state of a `RedisSink` instance: the configuration stored by
`__init__` and the connection handle `_conn` (`none` before `_connect` first
assigns it; handles are identified by number). -/
structure SinkState where
  host : String
  port : Nat
  key : String
  conn : Option Nat
deriving DecidableEq, Repr

/-- Outcomes of the external Redis operations performed during one call:
the first `rpush`, the `ping` issued by `_connect` (together with the identity
`newConn` of the handle `redis.StrictRedis(...)` returns), and the retried
`rpush`. `none` means the operation succeeds, `some e` that it raises `e`. -/
structure RedisEnv where
  push1 : Option PyExc
  newConn : Nat
  connectPing : Option PyExc
  push2 : Option PyExc
deriving DecidableEq, Repr

/-- One `rpush(key, payload)` invocation and whether it succeeded. -/
structure PushCall where
  key : String
  payload : String
  ok : Bool
deriving DecidableEq, Repr

/-- The observable effects of one call into the module: every `rpush`
invocation in order, the number of `_connect` calls, and the `info`- and
`error`-level lines sent to the `output` logger. -/
structure Effects where
  pushCalls : List PushCall
  connectCalls : Nat
  infoLogs : List String
  errorLogs : List String
deriving DecidableEq, Repr

/-- `RedisSink._connect`: `self._conn = redis.StrictRedis(host=self.host,
port=self.port, db=0, socket_timeout=30)` followed by `self._conn.ping()`.
The new handle is stored first; the ping outcome then decides whether the
method returns normally (`none`) or raises (`some e`). -/
def RedisSink.connectRun (s : SinkState) (newConn : Nat) (ping : Option PyExc) :
    SinkState × Option PyExc :=
  (⟨s.host, s.port, s.key, some newConn⟩, ping)

/-- `RedisSink.__init__(host, key, port)`: stores the configuration, then
calls `_connect`; an exception raised there propagates, in which case no
instance is produced. -/
def RedisSink.init (host key : String) (port newConn : Nat) (ping : Option PyExc) :
    Except PyExc SinkState :=
  let s0 : SinkState := ⟨host, port, key, none⟩
  let c := RedisSink.connectRun s0 newConn ping
  match c.2 with
  | none => Except.ok c.1
  | some e => Except.error e

/-- The default of the `port` parameter of `RedisSink.__init__`. -/
def RedisSink.defaultPort : Nat := 6379

/-- `RedisSink.log(**kwargs)`: try `rpush(key, json.dumps(kwargs))`; on
`redis.exceptions.ConnectionError` run the inner block `_connect();
info-log "reconnected"; rpush again`, whose exceptions are all caught by
`except Exception` and error-logged; any other exception from the first
`rpush` is not caught and propagates. Returns the new sink state, the
effects, and the exception reaching the caller, if any. -/
def RedisSink.logRun (s : SinkState) (env : RedisEnv) (ev : LogEvent) :
    SinkState × Effects × Option PyExc :=
  let payload := dumps ev
  match env.push1 with
  | none =>
    (s, ⟨[⟨s.key, payload, true⟩], 0, [], []⟩, none)
  | some e1 =>
    if e1.isConnectionError then
      let c := RedisSink.connectRun s env.newConn env.connectPing
      match c.2 with
      | some e2 =>
        (c.1, ⟨[⟨s.key, payload, false⟩], 1, [], ["Redis: " ++ e2.str]⟩, none)
      | none =>
        let infoMsg := "Redis: reconnected to server " ++ s.host ++ ":" ++ toString s.port
        match env.push2 with
        | none =>
          (c.1, ⟨[⟨s.key, payload, false⟩, ⟨s.key, payload, true⟩], 1, [infoMsg], []⟩, none)
        | some e2 =>
          (c.1, ⟨[⟨s.key, payload, false⟩, ⟨s.key, payload, false⟩], 1, [infoMsg],
            ["Redis: " ++ e2.str]⟩, none)
    else
      (s, ⟨[⟨s.key, payload, false⟩], 0, [], []⟩, some e1)

/-- `RedisSink.ping`: `return self._conn.ping()`; the probe's outcome, value
or exception, is passed through unchanged. -/
def RedisSink.pingRun (probe : Except PyExc Bool) : Except PyExc Bool := probe

/-- The successful appends among the push calls of one `log` call. -/
def Effects.appends (e : Effects) : List PushCall :=
  e.pushCalls.filter (fun p => p.ok)

/-- `StdoutSink.log(**kwargs)`: `print(json.dumps(kwargs))`, i.e. the
serialized event followed by one newline on standard output. -/
def StdoutSink.logRun (ev : LogEvent) : List Char :=
  dumpChars ev ++ ['\n']

/-- `Sink.log`, the base-class default: does nothing. -/
def Sink.log (_ev : LogEvent) : Unit := ()

/-! The configuration reader. -/

/-- A Python object as returned by `json.loads`: a dict, a list, or a scalar. -/
inductive PyObj where
  | dict (fs : List (String × PyObj))
  | list (xs : List PyObj)
  | prim (v : Jval)

/-- First match of `k` in an association list (Python dict lookup). -/
def lookupField : List (String × PyObj) → String → Option PyObj
  | [], _ => none
  | (k, v) :: fs, k0 => if k = k0 then some v else lookupField fs k0

/-- Python subscripting `obj[k]` with a string key: a dict either yields the
value or raises `KeyError(k)`; a list or scalar raises `TypeError`. -/
def PyObj.subscript : PyObj → String → Except PyExc PyObj
  | PyObj.dict fs, k =>
    match lookupField fs k with
    | some v => Except.ok v
    | none => Except.error (PyExc.keyError k)
  | PyObj.list _, _ =>
    Except.error (PyExc.typeError "list indices must be integers or slices, not str")
  | PyObj.prim _, _ =>
    Except.error (PyExc.typeError "indices must be integers")

/-- How a call of `read_config` ends: returning the pair
`(cfg['input'], cfg['output'])`, exiting the process via `sys.exit`, or
letting an exception propagate. -/
inductive ReadResult where
  | ok (inp outp : PyObj)
  | exit (code : Int)
  | raise (e : PyExc)

/-- `read_config(cfgfile)` given the outcome of `json.loads` on the file's
content (`Except.error m` when the parse raises `ValueError` with text `m`).
A parse failure is error-logged and ends in `sys.exit(-1)`; otherwise the two
subscripts run outside any handler, so their exceptions propagate. Returns
the emitted log lines and the result. -/
def read_config (parsed : Except String PyObj) : List String × ReadResult :=
  match parsed with
  | Except.error m =>
    (["Could not read config file: " ++ m], ReadResult.exit (-1))
  | Except.ok cfg =>
    match cfg.subscript "input" with
    | Except.error e => ([], ReadResult.raise e)
    | Except.ok inp =>
      match cfg.subscript "output" with
      | Except.error e => ([], ReadResult.raise e)
      | Except.ok outp => ([], ReadResult.ok inp outp)

/-! Claims. -/

/-- C1, counterexample: the claim says every failure during the append path is
swallowed, but a non-connection error (here a server-side `ResponseError`) on
the first `rpush` matches no `except` clause of `RedisSink.log` and reaches
the caller, with nothing logged and nothing dropped-and-recorded. -/
theorem redis_log_nonconnection_first_failure_escapes :
    RedisSink.logRun ⟨"localhost", 6379, "events", some 0⟩
        ⟨some (PyExc.respError "WRONGTYPE Operation against a key"), 1, none, none⟩
        [("level", Jval.str "error")] =
      (⟨"localhost", 6379, "events", some 0⟩,
       ⟨[⟨"events", "\x7b\"level\": \"error\"\x7d", false⟩], 0, [], []⟩,
       some (PyExc.respError "WRONGTYPE Operation against a key")) := by
  decide

/-- C1, amended: `RedisSink.log` raises nothing whenever the first append
either succeeds or fails with a connection-level error; in the failure modes
of that shape the event ends dropped with exactly one error log line. A
non-connection failure of the first append, by contrast, propagates. -/
theorem redis_log_never_raises_on_connection_path (s : SinkState) (env : RedisEnv)
    (ev : LogEvent) (h : ∀ e, env.push1 = some e → e.isConnectionError = true) :
    (RedisSink.logRun s env ev).2.2 = none ∧
      ((RedisSink.logRun s env ev).2.1.appends = [] →
        (RedisSink.logRun s env ev).2.1.errorLogs.length = 1) := by
  cases hp : env.push1 with
  | none => simp [RedisSink.logRun, hp, Effects.appends]
  | some e1 =>
    have he := h e1 hp
    cases hc : env.connectPing with
    | some e2 =>
      simp [RedisSink.logRun, RedisSink.connectRun, hp, he, hc, Effects.appends]
    | none =>
      cases h2 : env.push2 with
      | none =>
        simp [RedisSink.logRun, RedisSink.connectRun, hp, he, hc, h2, Effects.appends]
      | some e2 =>
        simp [RedisSink.logRun, RedisSink.connectRun, hp, he, hc, h2, Effects.appends]

/-- C1, witness: the amended theorem applied to a double connection failure
(first append and reconnect probe both raise `ConnectionError`). -/
theorem redis_log_never_raises_on_connection_path_witness :
    (RedisSink.logRun ⟨"localhost", 6379, "events", some 0⟩
        ⟨some (PyExc.connError "Connection reset by peer"), 1,
          some (PyExc.connError "Connection refused"), none⟩
        [("level", Jval.str "error")]).2.2 = none ∧
      ((RedisSink.logRun ⟨"localhost", 6379, "events", some 0⟩
          ⟨some (PyExc.connError "Connection reset by peer"), 1,
            some (PyExc.connError "Connection refused"), none⟩
          [("level", Jval.str "error")]).2.1.appends = [] →
        (RedisSink.logRun ⟨"localhost", 6379, "events", some 0⟩
            ⟨some (PyExc.connError "Connection reset by peer"), 1,
              some (PyExc.connError "Connection refused"), none⟩
            [("level", Jval.str "error")]).2.1.errorLogs.length = 1) :=
  redis_log_never_raises_on_connection_path _ _ _
    (by intro e he; obtain rfl := (Option.some.inj he).symm; rfl)

/-- C2, counterexample: on a first-append failure that is not a connection
error, the claim promises drop-and-log with no exception; the code leaves the
outer `except redis.exceptions.ConnectionError` clause unmatched, logs
nothing, and the exception reaches the caller. -/
theorem redis_log_nonconnection_first_failure_not_swallowed :
    RedisSink.logRun ⟨"redis.example.com", 6380, "queue", some 5⟩
        ⟨some (PyExc.respError "OOM command not allowed"), 6, none, none⟩
        [("msg", Jval.str "hi")] =
      (⟨"redis.example.com", 6380, "queue", some 5⟩,
       ⟨[⟨"queue", "\x7b\"msg\": \"hi\"\x7d", false⟩], 0, [], []⟩,
       some (PyExc.respError "OOM command not allowed")) := by
  decide

/-- C2, amended: if the first append fails with a non-connection error, no
reconnect is attempted (the state and the stored connection are unchanged and
`_connect` is not called), nothing is logged, the append does not happen, and
the exception propagates to the caller instead of being dropped. -/
theorem redis_log_nonconnection_first_failure_propagates (s : SinkState) (env : RedisEnv)
    (ev : LogEvent) (e : PyExc) (h1 : env.push1 = some e)
    (h2 : e.isConnectionError = false) :
    RedisSink.logRun s env ev =
      (s, ⟨[⟨s.key, dumps ev, false⟩], 0, [], []⟩, some e) := by
  simp [RedisSink.logRun, h1, h2]

/-- C2, witness: the amended theorem applied to a server-side error on the
first append. -/
theorem redis_log_nonconnection_first_failure_propagates_witness :
    RedisSink.logRun ⟨"localhost", 6379, "events", some 7⟩
        ⟨some (PyExc.respError "ERR unknown command"), 8, none, none⟩ [] =
      (⟨"localhost", 6379, "events", some 7⟩,
       ⟨[⟨"events", "\x7b\x7d", false⟩], 0, [], []⟩,
       some (PyExc.respError "ERR unknown command")) :=
  redis_log_nonconnection_first_failure_propagates _ _ _ _ rfl rfl

/-- C3, counterexample: `_connect` assigns the freshly created client to
`self._conn` before issuing the liveness probe, so when the probe raises
`ConnectionError` the previously stored handle (3) has already been replaced
by the new one (4) — contradicting the claim that a failed `Connect()` leaves
the stored connection unchanged. -/
theorem connect_failure_replaces_stored_connection :
    (RedisSink.connectRun ⟨"localhost", 6379, "events", some 3⟩ 4
        (some (PyExc.connError "Connection refused"))).2 =
      some (PyExc.connError "Connection refused") ∧
      (RedisSink.connectRun ⟨"localhost", 6379, "events", some 3⟩ 4
          (some (PyExc.connError "Connection refused"))).1.conn ≠ some 3 := by
  decide

/-- C3, amended: `_connect` stores the new connection handle unconditionally,
before the liveness probe; the probe's exception, if any, propagates, and in
that case the stored handle is the new (unprobed) one, not the previous one.
The configuration fields are untouched either way. -/
theorem connect_always_stores_new_handle (s : SinkState) (newConn : Nat)
    (ping : Option PyExc) :
    (RedisSink.connectRun s newConn ping).1.conn = some newConn ∧
      (RedisSink.connectRun s newConn ping).2 = ping ∧
      (RedisSink.connectRun s newConn ping).1.host = s.host ∧
      (RedisSink.connectRun s newConn ping).1.port = s.port ∧
      (RedisSink.connectRun s newConn ping).1.key = s.key :=
  ⟨rfl, rfl, rfl, rfl, rfl⟩

/-- C4: on a healthy connection (the first append succeeds) `log` performs
exactly one `rpush` of `json.dumps(kwargs)` to the configured key, calls
`_connect` zero times, leaves the sink state unchanged, logs nothing, and
raises nothing. -/
theorem redis_log_healthy_single_append (s : SinkState) (env : RedisEnv) (ev : LogEvent)
    (h : env.push1 = none) :
    RedisSink.logRun s env ev = (s, ⟨[⟨s.key, dumps ev, true⟩], 0, [], []⟩, none) := by
  simp [RedisSink.logRun, h]

/-- C4, witness: the healthy-path theorem applied to a concrete sink and
event. -/
theorem redis_log_healthy_single_append_witness :
    RedisSink.logRun ⟨"localhost", 6379, "events", some 0⟩ ⟨none, 1, none, none⟩
        [("level", Jval.str "error")] =
      (⟨"localhost", 6379, "events", some 0⟩,
       ⟨[⟨"events", "\x7b\"level\": \"error\"\x7d", true⟩], 0, [], []⟩, none) :=
  redis_log_healthy_single_append _ _ _ rfl

/-- C5: if the first append fails with a connection-level error and both the
reconnect and the retried append succeed, `log` ends with exactly one
successful append (the retried one, of the same serialized payload to the
same key), the stored connection replaced by the new handle, one info-level
"reconnected" line, no error line, and no exception. -/
theorem redis_log_reconnect_retry_success (s : SinkState) (env : RedisEnv) (ev : LogEvent)
    (e1 : PyExc) (h1 : env.push1 = some e1) (hconn : e1.isConnectionError = true)
    (hping : env.connectPing = none) (hpush : env.push2 = none) :
    RedisSink.logRun s env ev =
      (⟨s.host, s.port, s.key, some env.newConn⟩,
       ⟨[⟨s.key, dumps ev, false⟩, ⟨s.key, dumps ev, true⟩], 1,
        ["Redis: reconnected to server " ++ s.host ++ ":" ++ toString s.port], []⟩,
       none) := by
  simp [RedisSink.logRun, RedisSink.connectRun, h1, hconn, hping, hpush]

/-- C5, witness: the reconnect-and-retry theorem applied to a concrete sink,
environment and event. -/
theorem redis_log_reconnect_retry_success_witness :
    RedisSink.logRun ⟨"localhost", 6379, "events", some 0⟩
        ⟨some (PyExc.connError "Connection reset by peer"), 1, none, none⟩
        [("msg", Jval.str "up")] =
      (⟨"localhost", 6379, "events", some 1⟩,
       ⟨[⟨"events", "\x7b\"msg\": \"up\"\x7d", false⟩, ⟨"events", "\x7b\"msg\": \"up\"\x7d", true⟩], 1,
        ["Redis: reconnected to server localhost:6379"], []⟩,
       none) :=
  redis_log_reconnect_retry_success _ _ _ _ rfl rfl rfl rfl

/-- C6: if the first append fails with a connection-level error and then the
reconnect fails, or the retried append fails, `log` ends with zero successful
appends, exactly one error-level log line, no exception to the caller, and at
most two push attempts in total (at most one retry). -/
theorem redis_log_double_failure_drops_event (s : SinkState) (env : RedisEnv) (ev : LogEvent)
    (e1 : PyExc) (h1 : env.push1 = some e1) (hconn : e1.isConnectionError = true)
    (hfail : env.connectPing ≠ none ∨ env.push2 ≠ none) :
    (RedisSink.logRun s env ev).2.1.appends = [] ∧
      (RedisSink.logRun s env ev).2.1.errorLogs.length = 1 ∧
      (RedisSink.logRun s env ev).2.2 = none ∧
      (RedisSink.logRun s env ev).2.1.pushCalls.length ≤ 2 := by
  cases hping : env.connectPing with
  | some e2 =>
    simp [RedisSink.logRun, RedisSink.connectRun, h1, hconn, hping, Effects.appends]
  | none =>
    cases hpush : env.push2 with
    | some e2 =>
      simp [RedisSink.logRun, RedisSink.connectRun, h1, hconn, hping, hpush, Effects.appends]
    | none =>
      rcases hfail with hf | hf
      · exact absurd hping hf
      · exact absurd hpush hf

/-- C6, witness: the double-failure theorem applied to a reconnect that fails
with a second `ConnectionError`. -/
theorem redis_log_double_failure_drops_event_witness :
    (RedisSink.logRun ⟨"localhost", 6379, "events", some 0⟩
        ⟨some (PyExc.connError "Connection reset by peer"), 1,
          some (PyExc.connError "Connection refused"), none⟩
        [("msg", Jval.str "up")]).2.1.appends = [] ∧
      (RedisSink.logRun ⟨"localhost", 6379, "events", some 0⟩
          ⟨some (PyExc.connError "Connection reset by peer"), 1,
            some (PyExc.connError "Connection refused"), none⟩
          [("msg", Jval.str "up")]).2.1.errorLogs.length = 1 ∧
      (RedisSink.logRun ⟨"localhost", 6379, "events", some 0⟩
          ⟨some (PyExc.connError "Connection reset by peer"), 1,
            some (PyExc.connError "Connection refused"), none⟩
          [("msg", Jval.str "up")]).2.2 = none ∧
      (RedisSink.logRun ⟨"localhost", 6379, "events", some 0⟩
          ⟨some (PyExc.connError "Connection reset by peer"), 1,
            some (PyExc.connError "Connection refused"), none⟩
          [("msg", Jval.str "up")]).2.1.pushCalls.length ≤ 2 :=
  redis_log_double_failure_drops_event _ _ _ _ rfl rfl (Or.inl (by decide))

/-- C7, counterexample: for the sink `RedisSink("localhost", key="events")`
and the call `log(level="error", msg="disk full")` on a healthy connection,
the appended element is not the text claimed by the spec, because Python
`json.dumps` uses the default separators `", "` and `": "`, which put a space
after each colon and comma. -/
theorem redis_log_example_payload_not_unspaced :
    (RedisSink.logRun ⟨"localhost", 6379, "events", some 0⟩ ⟨none, 1, none, none⟩
        [("level", Jval.str "error"), ("msg", Jval.str "disk full")]).2.1.pushCalls ≠
      [⟨"events", "\x7b\"level\":\"error\",\"msg\":\"disk full\"\x7d", true⟩] := by
  decide

/-- C7, amended: the same call appends exactly one element to the list
`events`, whose text is the `json.dumps` rendering with the default
separators: a space follows the colon of each member and the comma between
members. -/
theorem redis_log_example_append :
    RedisSink.logRun ⟨"localhost", 6379, "events", some 0⟩ ⟨none, 1, none, none⟩
        [("level", Jval.str "error"), ("msg", Jval.str "disk full")] =
      (⟨"localhost", 6379, "events", some 0⟩,
       ⟨[⟨"events", "\x7b\"level\": \"error\", \"msg\": \"disk full\"\x7d", true⟩], 0, [], []⟩,
       none) := by
  decide

/-- C8: `RedisSink.__init__` stores the configuration (including the `port`
parameter, whose default is 6379) and then runs `_connect`: on a successful
probe the constructed instance holds exactly the given configuration and the
new connection handle, and on any `_connect` failure the exception (a
`ConnectionError` for a failed probe) propagates and no instance is
produced. -/
theorem redis_init_stores_config_and_connects (host key : String) (port newConn : Nat) :
    RedisSink.init host key port newConn none =
      Except.ok ⟨host, port, key, some newConn⟩ ∧
      (∀ e : PyExc, RedisSink.init host key port newConn (some e) = Except.error e) ∧
      RedisSink.defaultPort = 6379 :=
  ⟨rfl, fun _ => rfl, rfl⟩

/-- C9: `StdoutSink.log` writes the JSON encoding of the event followed by a
newline, and since the encoding itself contains no newline character the
output is exactly one line. -/
theorem stdout_log_single_line (ev : LogEvent) :
    StdoutSink.logRun ev = dumpChars ev ++ ['\n'] ∧
      (StdoutSink.logRun ev).count '\n' = 1 := by
  refine ⟨rfl, ?_⟩
  unfold StdoutSink.logRun
  rw [List.count_append,
    List.count_eq_zero.mpr (newline_not_mem_dumpChars ev)]
  rfl

/-- C10: when `json.loads` succeeds but the resulting object is missing the
key `input` (or has `input` but is missing `output`), `read_config` raises
the corresponding `KeyError`, which is outside the `except ValueError`
handler and so propagates — no log line, no `sys.exit`; the explicit
`sys.exit(-1)` happens exactly on a parse failure, after one error log
line. -/
theorem read_config_missing_key_raises (fs : List (String × PyObj))
    (h : (lookupField fs "input").isNone = true ∨
      (lookupField fs "output").isNone = true) :
    read_config (Except.ok (PyObj.dict fs)) =
      ([], ReadResult.raise (PyExc.keyError
        (if (lookupField fs "input").isNone then "input" else "output"))) ∧
      ∀ m, read_config (Except.error m) =
        (["Could not read config file: " ++ m], ReadResult.exit (-1)) := by
  constructor
  · cases hin : lookupField fs "input" with
    | none => simp [read_config, PyObj.subscript, hin]
    | some v =>
      have hout : lookupField fs "output" = none := by
        rcases h with h | h
        · rw [hin] at h; cases h
        · exact Option.isNone_iff_eq_none.mp h
      simp [read_config, PyObj.subscript, hin, hout]
  · intro m
    rfl

/-- C10, witness: a parsed config `\x7b"input": []\x7d` that lacks `output`
makes `read_config` raise `KeyError("output")`. -/
theorem read_config_missing_key_raises_witness :
    ((lookupField [("input", PyObj.list [])] "input").isNone = true ∨
      (lookupField [("input", PyObj.list [])] "output").isNone = true) ∧
      (read_config (Except.ok (PyObj.dict [("input", PyObj.list [])])) =
        ([], ReadResult.raise (PyExc.keyError "output")) ∧
        ∀ m, read_config (Except.error m) =
          (["Could not read config file: " ++ m], ReadResult.exit (-1))) :=
  ⟨Or.inr rfl, read_config_missing_key_raises _ (Or.inr rfl)⟩

end Logstash
